import Mathlib

/-!
Verification development for the dredd-rs rule engine.

The embedding below follows the repository's sources:
* `src/rule.rs` — `RuleError`, `ContextValue`, `RuleContext`, the `Rule`
  trait with its default `fire`, and `BaseRule::execute`;
* `src/rule/best_first_rule.rs` and `src/runner/best_first_rule_runner.rs`
  — the wrapper-based best-first rule and its runner;
* `src/rule/chain_rule.rs` and `src/runner/chain_rule_runner.rs`
  — the wrapper-based chain rule and its runner.

Machine details: `i64` payloads are modelled as `Int` (the store never
computes on them), `f64` payloads as their 64-bit pattern (`Nat`), and
`Vec<u8>` as `List Nat`.  A Rust `panic!` is modelled as an explicit
`panicked`/`Except.error` outcome.  Hook and predicate closures are
arbitrary Lean functions over the context; the drivers additionally
record a ghost trace of invocation events so that "hook X was (never)
invoked" is statable.
-/

/-- Error type of `src/rule.rs` (`RuleError`). -/
inductive RuleError where
  | contextNotSet
  | typeMismatch (key : String) (expected : String)
  | tooManyChildren (max : Nat) (attempted : Nat)
  | executionFailed (msg : String)
  | borrowFailed (msg : String)
  deriving DecidableEq

/-- 64-bit float payloads are carried opaquely by the context
(`ContextValue::Float(f64)`): the store never computes on them, so the
bit pattern is all that matters. -/
abbrev F64 := Nat

/-- Tagged context value of `src/rule.rs` (`ContextValue`); byte entries
model `u8` values. -/
inductive ContextValue where
  | bool (v : Bool)
  | int (v : Int)
  | float (v : F64)
  | str (v : String)
  | bytes (v : List Nat)
  deriving DecidableEq

/-- Variant tag of a `ContextValue`. -/
inductive CVTag where
  | bool | int | float | str | bytes
  deriving DecidableEq

/-- The variant a `ContextValue` holds. -/
def ContextValue.tag : ContextValue → CVTag
  | .bool _ => .bool
  | .int _ => .int
  | .float _ => .float
  | .str _ => .str
  | .bytes _ => .bytes

/-- `ContextValue::as_bool`. -/
def ContextValue.as_bool : ContextValue → Except RuleError Bool
  | .bool v => .ok v
  | _ => .error (.typeMismatch "unknown" "bool")

/-- `ContextValue::as_int`. -/
def ContextValue.as_int : ContextValue → Except RuleError Int
  | .int v => .ok v
  | _ => .error (.typeMismatch "unknown" "i64")

/-- `ContextValue::as_float`. -/
def ContextValue.as_float : ContextValue → Except RuleError F64
  | .float v => .ok v
  | _ => .error (.typeMismatch "unknown" "f64")

/-- `ContextValue::as_string`. -/
def ContextValue.as_string : ContextValue → Except RuleError String
  | .str v => .ok v
  | _ => .error (.typeMismatch "unknown" "String")

/-- `ContextValue::as_bytes`. -/
def ContextValue.as_bytes : ContextValue → Except RuleError (List Nat)
  | .bytes v => .ok v
  | _ => .error (.typeMismatch "unknown" "Vec<u8>")

/-- `RuleContext` of `src/rule.rs`: a map from static string keys to
tagged values, modelled extensionally (`HashMap::get` / `insert`
semantics). -/
def RuleContext := String → Option ContextValue

/-- `RuleContext::new`. -/
def RuleContext.new : RuleContext := fun _ => none

/-- `HashMap::insert`: set the key, overwriting any prior value. -/
def RuleContext.insertVal (m : RuleContext) (k : String) (v : ContextValue) : RuleContext :=
  fun k' => if k' = k then some v else m k'

/-- `RuleContext::set_bool`. -/
def RuleContext.set_bool (m : RuleContext) (k : String) (v : Bool) : RuleContext :=
  m.insertVal k (.bool v)

/-- `RuleContext::set_int`. -/
def RuleContext.set_int (m : RuleContext) (k : String) (v : Int) : RuleContext :=
  m.insertVal k (.int v)

/-- `RuleContext::set_float`. -/
def RuleContext.set_float (m : RuleContext) (k : String) (v : F64) : RuleContext :=
  m.insertVal k (.float v)

/-- `RuleContext::set_string`. -/
def RuleContext.set_string (m : RuleContext) (k : String) (v : String) : RuleContext :=
  m.insertVal k (.str v)

/-- `RuleContext::set_bytes`. -/
def RuleContext.set_bytes (m : RuleContext) (k : String) (v : List Nat) : RuleContext :=
  m.insertVal k (.bytes v)

/-- `RuleContext::get_bool`: missing key reports the queried key,
otherwise defer to `as_bool`. -/
def RuleContext.get_bool (m : RuleContext) (k : String) : Except RuleError Bool :=
  match m k with
  | none => .error (.typeMismatch k "bool")
  | some cv => cv.as_bool

/-- `RuleContext::get_int`. -/
def RuleContext.get_int (m : RuleContext) (k : String) : Except RuleError Int :=
  match m k with
  | none => .error (.typeMismatch k "i64")
  | some cv => cv.as_int

/-- `RuleContext::get_float`. -/
def RuleContext.get_float (m : RuleContext) (k : String) : Except RuleError F64 :=
  match m k with
  | none => .error (.typeMismatch k "f64")
  | some cv => cv.as_float

/-- `RuleContext::get_string`. -/
def RuleContext.get_string (m : RuleContext) (k : String) : Except RuleError String :=
  match m k with
  | none => .error (.typeMismatch k "String")
  | some cv => cv.as_string

/-- `RuleContext::get_bytes`. -/
def RuleContext.get_bytes (m : RuleContext) (k : String) : Except RuleError (List Nat) :=
  match m k with
  | none => .error (.typeMismatch k "Vec<u8>")
  | some cv => cv.as_bytes

/-- `RuleContext::contains_key`. -/
def RuleContext.contains_key (m : RuleContext) (k : String) : Bool :=
  (m k).isSome

/-- Ghost trace events: which predicate/hook of which rule was invoked.
Ids are instrumentation labels attached to the embedded rules. -/
inductive Event where
  | evaluated (id : Nat)
  | preExec (id : Nat)
  | mainExec (id : Nat)
  | postExec (id : Nat)
  | executed (id : Nat)
  deriving DecidableEq

/-- A rule as seen by the `Rule` trait of `src/rule.rs`: a fallible
predicate, a fallible `execute`, and an ordered list of children.  The
`id` is a ghost instrumentation label. -/
inductive DynRule where
  | node (id : Nat)
      (evalFn : RuleContext → Except RuleError Bool)
      (execFn : RuleContext → Except RuleError RuleContext)
      (children : List DynRule)

mutual

/-- Default lifecycle `Rule::fire` of `src/rule.rs`: evaluate; on true,
execute then fire every child in insertion order, reporting true; on
false report false; `?` propagates any error.  Returns the invocation
trace alongside the result. -/
def DynRule.fire : DynRule → RuleContext → List Event × Except RuleError (RuleContext × Bool)
  | .node id ev ex cs, ctx =>
    match ev ctx with
    | .error e => ([Event.evaluated id], .error e)
    | .ok false => ([Event.evaluated id], .ok (ctx, false))
    | .ok true =>
      match ex ctx with
      | .error e => ([Event.evaluated id, Event.executed id], .error e)
      | .ok ctx1 =>
        match DynRule.fireList cs ctx1 with
        | (tr, .error e) => (Event.evaluated id :: Event.executed id :: tr, .error e)
        | (tr, .ok ctx2) => (Event.evaluated id :: Event.executed id :: tr, .ok (ctx2, true))

/-- The `for child in self.children_mut() { child.fire(context)?; }`
loop of the default `fire`: each child's reported boolean is discarded,
errors abort the loop. -/
def DynRule.fireList : List DynRule → RuleContext → List Event × Except RuleError RuleContext
  | [], ctx => ([], .ok ctx)
  | c :: cs, ctx =>
    match DynRule.fire c ctx with
    | (tr, .error e) => (tr, .error e)
    | (tr, .ok (ctx1, _)) =>
      match DynRule.fireList cs ctx1 with
      | (tr2, res) => (tr ++ tr2, res)

end

/-- The hook fields of `BaseRule` in `src/rule.rs` (each optional, as in
the source), with a ghost instrumentation id. -/
structure BaseRule where
  id : Nat
  pre_execute_fn : Option (RuleContext → Except RuleError RuleContext)
  execute_fn : Option (RuleContext → Except RuleError RuleContext)
  post_execute_fn : Option (RuleContext → Except RuleError RuleContext)

/-- One `if let Some(f) = ... { f(context)?; }` step of
`BaseRule::execute`: a present hook is invoked (recorded in the trace);
an absent hook is skipped. -/
def hookStep (tag : Event) (f? : Option (RuleContext → Except RuleError RuleContext))
    (ctx : RuleContext) : List Event × Except RuleError RuleContext :=
  match f? with
  | none => ([], .ok ctx)
  | some f => ([tag], f ctx)

/-- Sequencing of hook steps under `?`: an error short-circuits, traces
accumulate. -/
def hookSeq (a : List Event × Except RuleError RuleContext)
    (g : RuleContext → List Event × Except RuleError RuleContext) :
    List Event × Except RuleError RuleContext :=
  match a with
  | (tr, .error e) => (tr, .error e)
  | (tr, .ok c) =>
    match g c with
    | (tr2, res) => (tr ++ tr2, res)

/-- `BaseRule::execute` of `src/rule.rs`: pre-hook, then main hook, then
post-hook, each optional, aborting at the first error via `?`. -/
def BaseRule.execute (r : BaseRule) (ctx : RuleContext) :
    List Event × Except RuleError RuleContext :=
  hookSeq (hookSeq (hookStep (Event.preExec r.id) r.pre_execute_fn ctx)
      (hookStep (Event.mainExec r.id) r.execute_fn))
    (hookStep (Event.postExec r.id) r.post_execute_fn)

/-- The wrapper-based best-first rule of `src/rule/best_first_rule.rs`:
an infallible predicate (which may mutate the shared context) and three
infallible hooks.  The `id` is a ghost instrumentation label. -/
inductive BestFirstRule where
  | node (id : Nat)
      (eval : RuleContext → Bool × RuleContext)
      (pre : RuleContext → RuleContext)
      (exec : RuleContext → RuleContext)
      (post : RuleContext → RuleContext)
      (children : List BestFirstRule)

mutual

/-- `BestFirstRule::fire`: if `run_eval` is true, run the pre/main/post
hooks, then run the children through the best-first runner, and return
`false` (telling the runner to stop); otherwise return `true` (telling
the runner to continue with the next sibling). -/
def BestFirstRule.fire : BestFirstRule → RuleContext → List Event × RuleContext × Bool
  | .node id ev pre ex post cs, ctx =>
    match ev ctx with
    | (true, ctx1) =>
      match BestFirstRuleRunner.run cs (post (ex (pre ctx1))) with
      | (tr, ctx5) =>
        (Event.evaluated id :: Event.preExec id :: Event.mainExec id :: Event.postExec id :: tr,
         ctx5, false)
    | (false, ctx1) => ([Event.evaluated id], ctx1, true)

/-- `BestFirstRuleRunner::run` of `src/runner/best_first_rule_runner.rs`:
fire the rules in order, stopping as soon as a `fire` returns `false`. -/
def BestFirstRuleRunner.run : List BestFirstRule → RuleContext → List Event × RuleContext
  | [], ctx => ([], ctx)
  | r :: rs, ctx =>
    match BestFirstRule.fire r ctx with
    | (tr, ctx1, b) =>
      if b then
        match BestFirstRuleRunner.run rs ctx1 with
        | (tr2, ctx2) => (tr ++ tr2, ctx2)
      else (tr, ctx1)

end

/-- The wrapper-based chain rule of `src/rule/chain_rule.rs`. -/
inductive ChainRule where
  | node (id : Nat)
      (eval : RuleContext → Bool × RuleContext)
      (pre : RuleContext → RuleContext)
      (exec : RuleContext → RuleContext)
      (post : RuleContext → RuleContext)
      (children : List ChainRule)

mutual

/-- `ChainRule::fire`: if `run_eval` is true, run the pre/main/post
hooks and then hand the children to the chain runner; either way the
function returns `true`.  A `panic!` raised by the nested runner unwinds
through `fire` (the `Except.error` carries the panic message). -/
def ChainRule.fire : ChainRule → RuleContext → List Event × Except String (RuleContext × Bool)
  | .node id ev pre ex post cs, ctx =>
    match ev ctx with
    | (true, ctx1) =>
      match ChainRule.runChildren cs (post (ex (pre ctx1))) with
      | (tr, .error m) =>
        (Event.evaluated id :: Event.preExec id :: Event.mainExec id :: Event.postExec id :: tr,
         .error m)
      | (tr, .ok ctx5) =>
        (Event.evaluated id :: Event.preExec id :: Event.mainExec id :: Event.postExec id :: tr,
         .ok (ctx5, true))
    | (false, ctx1) => ([Event.evaluated id], .ok (ctx1, true))

/-- `ChainRuleRunner::run` of `src/runner/chain_rule_runner.rs`: with at
most one rule, fire the first one if present; with two or more rules,
`panic!` (before touching any rule). -/
def ChainRule.runChildren : List ChainRule → RuleContext → List Event × Except String RuleContext
  | rules, ctx =>
    if rules.length ≤ 1 then
      match rules with
      | [] => ([], .ok ctx)
      | r :: _ =>
        match ChainRule.fire r ctx with
        | (tr, .error m) => (tr, .error m)
        | (tr, .ok (ctx1, _)) => (tr, .ok ctx1)
    else ([], .error "ChainRuleRunner does not support sibling rules, only child rules.")

end

/-- Process-level outcome of a chain runner call: normal return,
reportable error, or process abort.  The source only ever produces
`ok` or `panicked`; `err` is present so that error-return behaviour is
statable. -/
inductive ChainOutcome where
  | ok (ctx : RuleContext)
  | err (e : RuleError)
  | panicked (msg : String)

/-- `ChainRuleRunner::run` as observed by the caller: a normal return or
a propagated panic. -/
def ChainRuleRunner.run (rules : List ChainRule) (ctx : RuleContext) :
    List Event × ChainOutcome :=
  match ChainRule.runChildren rules ctx with
  | (tr, .error m) => (tr, .panicked m)
  | (tr, .ok ctx1) => (tr, .ok ctx1)

/-- Children of a chain rule. -/
def ChainRule.children : ChainRule → List ChainRule
  | .node _ _ _ _ _ cs => cs

/-- Outcome of `ChainRule::add_child`: the updated rule, a reportable
error, or a process abort.  The source only ever produces `ok` or
`panicked`; `err` is present so that error-return behaviour is
statable. -/
inductive AddChildOutcome where
  | ok (r : ChainRule)
  | err (e : RuleError)
  | panicked (msg : String)

/-- `ChainRule::add_child` of `src/rule/chain_rule.rs`: `panic!` when a
child is already present, otherwise push the new child. -/
def ChainRule.add_child : ChainRule → ChainRule → AddChildOutcome
  | .node id ev pre ex post cs, c =>
    if cs.length > 0 then .panicked "Chain rule can only have one child"
    else .ok (.node id ev pre ex post (cs ++ [c]))

/-- Is a chain-runner outcome a reportable (returned) error?  The
source never produces one: misuse panics instead. -/
def ChainOutcome.isReportedErr : ChainOutcome → Bool
  | .err _ => true
  | _ => false

/-- Is an `add_child` outcome a reportable (returned) error? -/
def AddChildOutcome.isReportedErr : AddChildOutcome → Bool
  | .err _ => true
  | _ => false

/-- The boolean a chain `fire` returned, when it returned normally. -/
def chainFireBool (p : List Event × Except String (RuleContext × Bool)) : Option Bool :=
  match p.2 with
  | .ok (_, b) => some b
  | .error _ => none

/-- The empty context, used by the concrete instances below. -/
def ctx0 : RuleContext := RuleContext.new

/-- A childless best-first rule whose predicate is constantly true and
whose hooks do nothing. -/
def bTrue (i : Nat) : BestFirstRule := .node i (fun c => (true, c)) id id id []

/-- A childless best-first rule whose predicate is constantly false. -/
def bFalse (i : Nat) : BestFirstRule := .node i (fun c => (false, c)) id id id []

/-- A childless chain rule whose predicate is constantly true and whose
hooks do nothing. -/
def cTrue (i : Nat) : ChainRule := .node i (fun c => (true, c)) id id id []

/-- A childless chain rule whose predicate is constantly false. -/
def cFalse (i : Nat) : ChainRule := .node i (fun c => (false, c)) id id id []

/-- A chain rule that already holds its single permitted child. -/
def cWithChild : ChainRule := .node 0 (fun c => (true, c)) id id id [cTrue 1]

/-- A childless trait-level rule whose predicate reports true. -/
def dTrue (i : Nat) : DynRule := .node i (fun _ => .ok true) (fun c => .ok c) []

/-- A childless trait-level rule whose predicate reports false. -/
def dFalse (i : Nat) : DynRule := .node i (fun _ => .ok false) (fun c => .ok c) []

/-- A hook that succeeds without touching the context. -/
def hookOk : RuleContext → Except RuleError RuleContext := fun c => .ok c

/-- A hook that fails. -/
def hookFail (msg : String) : RuleContext → Except RuleError RuleContext :=
  fun _ => .error (.executionFailed msg)

/-- C8: for every supported variant, every key and every value, a
variant `set` followed by the same variant's `get` at that key returns
the value unchanged; a `get` of any other variant at that key then fails
with a `TypeMismatch` error; and any variant-specific `get` on a key
absent from the context fails with a recoverable `TypeMismatch` error
rather than panicking or returning a default. -/
theorem context_round_trip (m : RuleContext) (k : String) (b : Bool) (n : Int)
    (x : F64) (s : String) (y : List Nat) :
    ((m.set_bool k b).get_bool k = .ok b ∧
     (m.set_int k n).get_int k = .ok n ∧
     (m.set_float k x).get_float k = .ok x ∧
     (m.set_string k s).get_string k = .ok s ∧
     (m.set_bytes k y).get_bytes k = .ok y)
  ∧ ((m.set_bool k b).get_int k = .error (.typeMismatch "unknown" "i64") ∧
     (m.set_bool k b).get_float k = .error (.typeMismatch "unknown" "f64") ∧
     (m.set_bool k b).get_string k = .error (.typeMismatch "unknown" "String") ∧
     (m.set_bool k b).get_bytes k = .error (.typeMismatch "unknown" "Vec<u8>") ∧
     (m.set_int k n).get_bool k = .error (.typeMismatch "unknown" "bool") ∧
     (m.set_int k n).get_float k = .error (.typeMismatch "unknown" "f64") ∧
     (m.set_int k n).get_string k = .error (.typeMismatch "unknown" "String") ∧
     (m.set_int k n).get_bytes k = .error (.typeMismatch "unknown" "Vec<u8>") ∧
     (m.set_float k x).get_bool k = .error (.typeMismatch "unknown" "bool") ∧
     (m.set_float k x).get_int k = .error (.typeMismatch "unknown" "i64") ∧
     (m.set_float k x).get_string k = .error (.typeMismatch "unknown" "String") ∧
     (m.set_float k x).get_bytes k = .error (.typeMismatch "unknown" "Vec<u8>") ∧
     (m.set_string k s).get_bool k = .error (.typeMismatch "unknown" "bool") ∧
     (m.set_string k s).get_int k = .error (.typeMismatch "unknown" "i64") ∧
     (m.set_string k s).get_float k = .error (.typeMismatch "unknown" "f64") ∧
     (m.set_string k s).get_bytes k = .error (.typeMismatch "unknown" "Vec<u8>") ∧
     (m.set_bytes k y).get_bool k = .error (.typeMismatch "unknown" "bool") ∧
     (m.set_bytes k y).get_int k = .error (.typeMismatch "unknown" "i64") ∧
     (m.set_bytes k y).get_float k = .error (.typeMismatch "unknown" "f64") ∧
     (m.set_bytes k y).get_string k = .error (.typeMismatch "unknown" "String"))
  ∧ (m k = none →
     m.get_bool k = .error (.typeMismatch k "bool") ∧
     m.get_int k = .error (.typeMismatch k "i64") ∧
     m.get_float k = .error (.typeMismatch k "f64") ∧
     m.get_string k = .error (.typeMismatch k "String") ∧
     m.get_bytes k = .error (.typeMismatch k "Vec<u8>")) := by
  refine ⟨?_, ?_, ?_⟩
  · refine ⟨?_, ?_, ?_, ?_, ?_⟩ <;>
      simp [RuleContext.set_bool, RuleContext.set_int, RuleContext.set_float,
        RuleContext.set_string, RuleContext.set_bytes, RuleContext.insertVal,
        RuleContext.get_bool, RuleContext.get_int, RuleContext.get_float,
        RuleContext.get_string, RuleContext.get_bytes,
        ContextValue.as_bool, ContextValue.as_int, ContextValue.as_float,
        ContextValue.as_string, ContextValue.as_bytes]
  · refine ⟨?_, ?_, ?_, ?_, ?_, ?_, ?_, ?_, ?_, ?_, ?_, ?_, ?_, ?_, ?_, ?_, ?_, ?_, ?_, ?_⟩ <;>
      simp [RuleContext.set_bool, RuleContext.set_int, RuleContext.set_float,
        RuleContext.set_string, RuleContext.set_bytes, RuleContext.insertVal,
        RuleContext.get_bool, RuleContext.get_int, RuleContext.get_float,
        RuleContext.get_string, RuleContext.get_bytes,
        ContextValue.as_bool, ContextValue.as_int, ContextValue.as_float,
        ContextValue.as_string, ContextValue.as_bytes]
  · intro h
    refine ⟨?_, ?_, ?_, ?_, ?_⟩ <;>
      simp [RuleContext.get_bool, RuleContext.get_int, RuleContext.get_float,
        RuleContext.get_string, RuleContext.get_bytes, h]

/-- Witness for C8 at a concrete key/value and the fresh context. -/
theorem context_round_trip_instance :
    (RuleContext.new.set_bool "a" true).get_bool "a" = .ok true
  ∧ (RuleContext.new.set_bool "a" true).get_int "a" = .error (.typeMismatch "unknown" "i64")
  ∧ RuleContext.new.get_float "a" = .error (.typeMismatch "a" "f64") := by
  have h := context_round_trip RuleContext.new "a" true 0 0 "" []
  exact ⟨h.1.1, h.2.1.1, (h.2.2 rfl).2.2.1⟩

/-- C9: when a variant-specific `get` finds the key present but holding
a different variant, the `TypeMismatch` error carries the key field
`"unknown"` rather than the queried key; only the missing-key case
reports the actual key. -/
theorem mismatch_key_unknown (m : RuleContext) (k : String) :
    (∀ cv, m k = some cv →
      (cv.tag ≠ CVTag.bool → m.get_bool k = .error (.typeMismatch "unknown" "bool")) ∧
      (cv.tag ≠ CVTag.int → m.get_int k = .error (.typeMismatch "unknown" "i64")) ∧
      (cv.tag ≠ CVTag.float → m.get_float k = .error (.typeMismatch "unknown" "f64")) ∧
      (cv.tag ≠ CVTag.str → m.get_string k = .error (.typeMismatch "unknown" "String")) ∧
      (cv.tag ≠ CVTag.bytes → m.get_bytes k = .error (.typeMismatch "unknown" "Vec<u8>")))
  ∧ (m k = none →
      m.get_bool k = .error (.typeMismatch k "bool") ∧
      m.get_int k = .error (.typeMismatch k "i64") ∧
      m.get_float k = .error (.typeMismatch k "f64") ∧
      m.get_string k = .error (.typeMismatch k "String") ∧
      m.get_bytes k = .error (.typeMismatch k "Vec<u8>")) := by
  constructor
  · intro cv h
    refine ⟨?_, ?_, ?_, ?_, ?_⟩ <;> intro htag <;>
      cases cv <;> simp [ContextValue.tag] at htag <;>
      simp [RuleContext.get_bool, RuleContext.get_int, RuleContext.get_float,
        RuleContext.get_string, RuleContext.get_bytes, h,
        ContextValue.as_bool, ContextValue.as_int, ContextValue.as_float,
        ContextValue.as_string, ContextValue.as_bytes]
  · intro h
    refine ⟨?_, ?_, ?_, ?_, ?_⟩ <;>
      simp [RuleContext.get_bool, RuleContext.get_int, RuleContext.get_float,
        RuleContext.get_string, RuleContext.get_bytes, h]

/-- Witness for C9: an `Int`-holding key read as `bool` reports key
`"unknown"`; the same read on the fresh context reports the key. -/
theorem mismatch_key_unknown_instance :
    (RuleContext.new.set_int "k9" 7).get_bool "k9" = .error (.typeMismatch "unknown" "bool")
  ∧ RuleContext.new.get_bool "k9" = .error (.typeMismatch "k9" "bool") := by
  have h1 := (mismatch_key_unknown (RuleContext.new.set_int "k9" 7) "k9").1
    (ContextValue.int 7)
    (by simp [RuleContext.set_int, RuleContext.insertVal])
  have h2 := (mismatch_key_unknown RuleContext.new "k9").2 rfl
  exact ⟨h1.1 (by simp [ContextValue.tag]), h2.1⟩

/-- C10: the chain runner called with an empty rule list returns
normally with no rule evaluated, no hook executed, and the context
unchanged. -/
theorem chain_runner_empty_noop (ctx : RuleContext) :
    ChainRuleRunner.run [] ctx = ([], ChainOutcome.ok ctx) := by
  simp [ChainRuleRunner.run, ChainRule.runChildren]

/-- Counterexample for C4: on a chain rule that already has one child,
the second `add_child` does not return the reportable error
`TooManyChildren{max:1, attempted:2}` — it panics. -/
theorem chain_add_child_cex :
    ChainRule.add_child cWithChild (cTrue 2)
      = AddChildOutcome.panicked "Chain rule can only have one child"
  ∧ AddChildOutcome.isReportedErr (ChainRule.add_child cWithChild (cTrue 2)) = false := by
  constructor
  · simp [cWithChild, ChainRule.add_child]
  · simp [cWithChild, ChainRule.add_child, AddChildOutcome.isReportedErr]

/-- C4 (amended): adding a child to a chain rule that already has at
least one child aborts the process with the panic message
"Chain rule can only have one child" at the point of the call, producing
no updated rule (the existing child list is untouched). -/
theorem chain_add_child_panics (r c : ChainRule) (h : r.children ≠ []) :
    ChainRule.add_child r c = AddChildOutcome.panicked "Chain rule can only have one child" := by
  obtain ⟨id, ev, pre, ex, post, cs⟩ := r
  simp [ChainRule.children] at h
  simp [ChainRule.add_child, List.length_pos.mpr h]

/-- Witness for C4's amended theorem at a concrete one-child rule. -/
theorem chain_add_child_panics_instance :
    cWithChild.children ≠ []
  ∧ ChainRule.add_child cWithChild (cFalse 3)
      = AddChildOutcome.panicked "Chain rule can only have one child" :=
  ⟨by simp [cWithChild, ChainRule.children],
   chain_add_child_panics cWithChild (cFalse 3) (by simp [cWithChild, ChainRule.children])⟩

/-- Counterexample for C5: two top-level rules given to the chain runner
do not produce a reportable `ExecutionFailed` error — the runner panics
(before evaluating anything: the trace is empty). -/
theorem chain_runner_siblings_cex :
    ChainRuleRunner.run [cFalse 0, cTrue 1] ctx0
      = ([], ChainOutcome.panicked
          "ChainRuleRunner does not support sibling rules, only child rules.")
  ∧ ChainOutcome.isReportedErr (ChainRuleRunner.run [cFalse 0, cTrue 1] ctx0).2 = false := by
  constructor
  · simp [ChainRuleRunner.run, ChainRule.runChildren]
  · simp [ChainRuleRunner.run, ChainRule.runChildren, ChainOutcome.isReportedErr]

/-- C5 (amended): the chain runner, given two or more top-level rules,
aborts the process with the panic message "ChainRuleRunner does not
support sibling rules, only child rules.", and evaluates and executes no
rule at all before aborting (the event trace is empty). -/
theorem chain_runner_rejects_siblings (rules : List ChainRule) (ctx : RuleContext)
    (h : 2 ≤ rules.length) :
    ChainRuleRunner.run rules ctx
      = ([], ChainOutcome.panicked
          "ChainRuleRunner does not support sibling rules, only child rules.") := by
  have h1 : ¬ rules.length ≤ 1 := by omega
  have h2 : ChainRule.runChildren rules ctx
      = ([], .error "ChainRuleRunner does not support sibling rules, only child rules.") := by
    rw [ChainRule.runChildren.eq_def]
    simp [h1]
  simp [ChainRuleRunner.run, h2]

/-- Witness for C5's amended theorem at two concrete rules. -/
theorem chain_runner_rejects_siblings_instance :
    2 ≤ ([cTrue 0, cTrue 1] : List ChainRule).length
  ∧ ChainRuleRunner.run [cTrue 0, cTrue 1] ctx0
      = ([], ChainOutcome.panicked
          "ChainRuleRunner does not support sibling rules, only child rules.") :=
  ⟨by simp, chain_runner_rejects_siblings [cTrue 0, cTrue 1] ctx0 (by simp)⟩

/-- Counterexample for C6: a chain rule whose predicate is false reports
`true` from `fire`, not `false` (and indeed runs no hook: its trace is
only the evaluation event). -/
theorem chain_fire_eval_false_cex :
    chainFireBool (ChainRule.fire (cFalse 0) ctx0) = some true
  ∧ (ChainRule.fire (cFalse 0) ctx0).1 = [Event.evaluated 0] := by
  have h : ChainRule.fire (cFalse 0) ctx0 = ([Event.evaluated 0], .ok (ctx0, true)) := by
    rw [cFalse, ChainRule.fire.eq_def]
  simp [h, chainFireBool]

/-- C6 (amended): chain-flavored `fire` — if `evaluate` is true it runs
the pre/main/post hooks and then fires its sole child unconditionally
when one is present (the runner performs no extra predicate check; the
child's own `evaluate` still gates the child's own hooks); if `evaluate`
is false it runs no hook, does not descend into the child, and returns
`true` (chain `fire` always returns `true`). -/
theorem chain_fire_semantics (id : Nat)
    (ev : RuleContext → Bool × RuleContext) (pre ex post : RuleContext → RuleContext)
    (ctx ctx1 : RuleContext) :
    (∀ (c : ChainRule) (tr : List Event) (ctx5 : RuleContext) (b : Bool),
       ev ctx = (true, ctx1) →
       ChainRule.fire c (post (ex (pre ctx1))) = (tr, .ok (ctx5, b)) →
       ChainRule.fire (.node id ev pre ex post [c]) ctx
         = (Event.evaluated id :: Event.preExec id :: Event.mainExec id :: Event.postExec id :: tr,
            .ok (ctx5, true)))
  ∧ (∀ (c : ChainRule) (tr : List Event) (m : String),
       ev ctx = (true, ctx1) →
       ChainRule.fire c (post (ex (pre ctx1))) = (tr, .error m) →
       ChainRule.fire (.node id ev pre ex post [c]) ctx
         = (Event.evaluated id :: Event.preExec id :: Event.mainExec id :: Event.postExec id :: tr,
            .error m))
  ∧ (ev ctx = (true, ctx1) →
       ChainRule.fire (.node id ev pre ex post []) ctx
         = ([Event.evaluated id, Event.preExec id, Event.mainExec id, Event.postExec id],
            .ok (post (ex (pre ctx1)), true)))
  ∧ (∀ cs : List ChainRule, ev ctx = (false, ctx1) →
       ChainRule.fire (.node id ev pre ex post cs) ctx
         = ([Event.evaluated id], .ok (ctx1, true))) := by
  refine ⟨?_, ?_, ?_, ?_⟩
  · intro c tr ctx5 b h hc
    have hrc : ChainRule.runChildren [c] (post (ex (pre ctx1))) = (tr, .ok ctx5) := by
      rw [ChainRule.runChildren.eq_def]
      simp [hc]
    rw [ChainRule.fire.eq_def]
    simp [h, hrc]
  · intro c tr m h hc
    have hrc : ChainRule.runChildren [c] (post (ex (pre ctx1))) = (tr, .error m) := by
      rw [ChainRule.runChildren.eq_def]
      simp [hc]
    rw [ChainRule.fire.eq_def]
    simp [h, hrc]
  · intro h
    have hrc : ChainRule.runChildren [] (post (ex (pre ctx1)))
        = ([], .ok (post (ex (pre ctx1)))) := by
      rw [ChainRule.runChildren.eq_def]
      simp
    rw [ChainRule.fire.eq_def]
    simp [h, hrc]
  · intro cs h
    rw [ChainRule.fire.eq_def]
    simp [h]

/-- Witness for C6's amended theorem: concrete one-node chains with a
true and a false predicate. -/
theorem chain_fire_semantics_instance :
    ChainRule.fire (cTrue 4) ctx0
      = ([Event.evaluated 4, Event.preExec 4, Event.mainExec 4, Event.postExec 4],
         .ok (ctx0, true))
  ∧ ChainRule.fire (cFalse 5) ctx0 = ([Event.evaluated 5], .ok (ctx0, true)) := by
  have h1 := (chain_fire_semantics 4 (fun c => (true, c)) id id id ctx0 ctx0).2.2.1 rfl
  have h2 := (chain_fire_semantics 5 (fun c => (false, c)) id id id ctx0 ctx0).2.2.2 [] rfl
  exact ⟨h1, h2⟩

/-- Counterexample for C2: a best-first rule whose predicate is false
returns `true` from `fire` (the runner's continue signal), not `false`
— its trace still shows no hook ran. -/
theorem bf_fire_eval_false_cex :
    (BestFirstRule.fire (bFalse 0) ctx0).2.2 = true
  ∧ (BestFirstRule.fire (bFalse 0) ctx0).1 = [Event.evaluated 0] := by
  have h : BestFirstRule.fire (bFalse 0) ctx0 = ([Event.evaluated 0], ctx0, true) := by
    rw [bFalse, BestFirstRule.fire.eq_def]
  simp [h]

/-- C2 (amended): for every rule of either wrapper flavor and for the
trait-level default, a false `evaluate` means `fire` invokes none of the
three action hooks (the trace holds only the evaluation event); the
trait-level default `fire` then reports `false`, while
`BestFirstRule::fire` and `ChainRule::fire` report `true`. -/
theorem eval_false_skips_hooks (id : Nat) :
    (∀ (ev : RuleContext → Bool × RuleContext) (pre ex post : RuleContext → RuleContext)
       (cs : List BestFirstRule) (ctx ctx1 : RuleContext),
       ev ctx = (false, ctx1) →
       BestFirstRule.fire (.node id ev pre ex post cs) ctx = ([Event.evaluated id], ctx1, true))
  ∧ (∀ (ev : RuleContext → Bool × RuleContext) (pre ex post : RuleContext → RuleContext)
       (cs : List ChainRule) (ctx ctx1 : RuleContext),
       ev ctx = (false, ctx1) →
       ChainRule.fire (.node id ev pre ex post cs) ctx = ([Event.evaluated id], .ok (ctx1, true)))
  ∧ (∀ (evF : RuleContext → Except RuleError Bool)
       (exF : RuleContext → Except RuleError RuleContext)
       (cs : List DynRule) (ctx : RuleContext),
       evF ctx = .ok false →
       DynRule.fire (.node id evF exF cs) ctx = ([Event.evaluated id], .ok (ctx, false))) := by
  refine ⟨?_, ?_, ?_⟩
  · intro ev pre ex post cs ctx ctx1 h
    rw [BestFirstRule.fire.eq_def]
    simp [h]
  · intro ev pre ex post cs ctx ctx1 h
    rw [ChainRule.fire.eq_def]
    simp [h]
  · intro evF exF cs ctx h
    rw [DynRule.fire.eq_def]
    simp [h]

/-- Witness for C2's amended theorem at concrete false-predicate rules
of all three kinds. -/
theorem eval_false_skips_hooks_instance :
    BestFirstRule.fire (bFalse 6) ctx0 = ([Event.evaluated 6], ctx0, true)
  ∧ ChainRule.fire (cFalse 6) ctx0 = ([Event.evaluated 6], .ok (ctx0, true))
  ∧ DynRule.fire (dFalse 6) ctx0 = ([Event.evaluated 6], .ok (ctx0, false)) := by
  have h := eval_false_skips_hooks 6
  exact ⟨h.1 (fun c => (false, c)) id id id [] ctx0 ctx0 rfl,
         h.2.1 (fun c => (false, c)) id id id [] ctx0 ctx0 rfl,
         h.2.2 (fun _ => .ok false) (fun c => .ok c) [] ctx0 rfl⟩

/-- Helper: the best-first runner stops at a rule whose `fire` returned
`false` — the remaining siblings contribute nothing. -/
theorem bfRun_cons_commit (r : BestFirstRule) (rs : List BestFirstRule)
    (ctx c5 : RuleContext) (tr : List Event)
    (h : BestFirstRule.fire r ctx = (tr, c5, false)) :
    BestFirstRuleRunner.run (r :: rs) ctx = (tr, c5) := by
  rw [BestFirstRuleRunner.run.eq_def]
  simp [h]

/-- Helper: the best-first runner continues past a rule whose `fire`
returned `true`. -/
theorem bfRun_cons_continue (r : BestFirstRule) (rs : List BestFirstRule)
    (ctx c1 : RuleContext) (tr : List Event)
    (h : BestFirstRule.fire r ctx = (tr, c1, true)) :
    BestFirstRuleRunner.run (r :: rs) ctx
      = (tr ++ (BestFirstRuleRunner.run rs c1).1, (BestFirstRuleRunner.run rs c1).2) := by
  rcases hr : BestFirstRuleRunner.run rs c1 with ⟨tr2, c2⟩
  rw [BestFirstRuleRunner.run.eq_def]
  simp [h, hr]

/-- C1: best-first commit at every level.  A node whose predicate is
true runs its own hooks and then hands its children, in insertion order,
to the best-first runner; at runner level, a rule whose predicate is
true commits — the run is identical to the run in which the later
siblings are absent, so they are never evaluated and never executed —
while a rule whose predicate is false is skipped (only its evaluation
event occurs) and the scan continues with the next sibling. -/
theorem best_first_commit (id : Nat)
    (ev : RuleContext → Bool × RuleContext) (pre ex post : RuleContext → RuleContext)
    (cs rs : List BestFirstRule) (ctx ctx1 : RuleContext) :
    (ev ctx = (true, ctx1) →
       BestFirstRule.fire (.node id ev pre ex post cs) ctx
         = (Event.evaluated id :: Event.preExec id :: Event.mainExec id :: Event.postExec id ::
              (BestFirstRuleRunner.run cs (post (ex (pre ctx1)))).1,
            (BestFirstRuleRunner.run cs (post (ex (pre ctx1)))).2, false)
     ∧ BestFirstRuleRunner.run (BestFirstRule.node id ev pre ex post cs :: rs) ctx
         = BestFirstRuleRunner.run [BestFirstRule.node id ev pre ex post cs] ctx)
  ∧ (ev ctx = (false, ctx1) →
       BestFirstRule.fire (.node id ev pre ex post cs) ctx = ([Event.evaluated id], ctx1, true)
     ∧ BestFirstRuleRunner.run (BestFirstRule.node id ev pre ex post cs :: rs) ctx
         = (Event.evaluated id :: (BestFirstRuleRunner.run rs ctx1).1,
            (BestFirstRuleRunner.run rs ctx1).2)) := by
  constructor
  · intro h
    rcases hr : BestFirstRuleRunner.run cs (post (ex (pre ctx1))) with ⟨tr, c5⟩
    have hf : BestFirstRule.fire (.node id ev pre ex post cs) ctx
        = (Event.evaluated id :: Event.preExec id :: Event.mainExec id :: Event.postExec id :: tr,
           c5, false) := by
      rw [BestFirstRule.fire.eq_def]
      simp [h, hr]
    refine ⟨by simp [hf, hr], ?_⟩
    rw [bfRun_cons_commit _ _ _ _ _ hf, bfRun_cons_commit _ _ _ _ _ hf]
  · intro h
    have hf : BestFirstRule.fire (.node id ev pre ex post cs) ctx
        = ([Event.evaluated id], ctx1, true) := by
      rw [BestFirstRule.fire.eq_def]
      simp [h]
    exact ⟨hf, bfRun_cons_continue _ _ _ _ _ hf⟩

/-- Witness for C1 at concrete rules: a committing head makes the run
identical to the run without the later sibling, and a false-predicate
rule is skipped with only its evaluation event. -/
theorem best_first_commit_instance :
    BestFirstRuleRunner.run [bTrue 1, bFalse 5] ctx0 = BestFirstRuleRunner.run [bTrue 1] ctx0
  ∧ BestFirstRule.fire (bFalse 2) ctx0 = ([Event.evaluated 2], ctx0, true) := by
  have h1 := (best_first_commit 1 (fun c => (true, c)) id id id [] [bFalse 5] ctx0 ctx0).1 rfl
  have h2 := (best_first_commit 2 (fun c => (false, c)) id id id [] [bTrue 1] ctx0 ctx0).2 rfl
  exact ⟨h1.2, h2.1⟩

/-- C3: the default lifecycle contract of the trait-level `fire` — a
false predicate does nothing and reports false; a predicate error, or a
hook error from `execute` or from any child's recursive `fire`, is
propagated as the result; on success the rule executes and then fires
every child in insertion order, reporting true. -/
theorem default_fire_lifecycle (id : Nat)
    (ev : RuleContext → Except RuleError Bool) (ex : RuleContext → Except RuleError RuleContext)
    (cs : List DynRule) (ctx : RuleContext) :
    (ev ctx = .ok false →
       DynRule.fire (.node id ev ex cs) ctx = ([Event.evaluated id], .ok (ctx, false)))
  ∧ (∀ e, ev ctx = .error e →
       DynRule.fire (.node id ev ex cs) ctx = ([Event.evaluated id], .error e))
  ∧ (∀ e, ev ctx = .ok true → ex ctx = .error e →
       DynRule.fire (.node id ev ex cs) ctx = ([Event.evaluated id, Event.executed id], .error e))
  ∧ (∀ ctx1, ev ctx = .ok true → ex ctx = .ok ctx1 →
       DynRule.fire (.node id ev ex cs) ctx
         = (Event.evaluated id :: Event.executed id :: (DynRule.fireList cs ctx1).1,
            match (DynRule.fireList cs ctx1).2 with
            | .error e => .error e
            | .ok ctx2 => .ok (ctx2, true)))
  ∧ (∀ (c : DynRule) (cs2 : List DynRule) (ctx' : RuleContext),
       (∀ tr e, DynRule.fire c ctx' = (tr, .error e) →
          DynRule.fireList (c :: cs2) ctx' = (tr, .error e))
     ∧ (∀ tr ctxc b, DynRule.fire c ctx' = (tr, .ok (ctxc, b)) →
          DynRule.fireList (c :: cs2) ctx'
            = (tr ++ (DynRule.fireList cs2 ctxc).1, (DynRule.fireList cs2 ctxc).2))) := by
  refine ⟨?_, ?_, ?_, ?_, ?_⟩
  · intro h
    rw [DynRule.fire.eq_def]
    simp [h]
  · intro e h
    rw [DynRule.fire.eq_def]
    simp [h]
  · intro e h1 h2
    rw [DynRule.fire.eq_def]
    simp [h1, h2]
  · intro ctx1 h1 h2
    rcases hfl : DynRule.fireList cs ctx1 with ⟨tr, res⟩
    rw [DynRule.fire.eq_def]
    cases res <;> simp [h1, h2, hfl]
  · intro c cs2 ctx'
    constructor
    · intro tr e h
      rw [DynRule.fireList.eq_def]
      simp [h]
    · intro tr ctxc b h
      rcases hfl : DynRule.fireList cs2 ctxc with ⟨tr2, res2⟩
      rw [DynRule.fireList.eq_def]
      simp [h, hfl]

/-- Witness for C3: a concrete false-predicate rule does nothing and
reports false; a concrete true-predicate childless rule executes and
reports true. -/
theorem default_fire_lifecycle_instance :
    DynRule.fire (dFalse 0) ctx0 = ([Event.evaluated 0], .ok (ctx0, false))
  ∧ DynRule.fire (dTrue 1) ctx0 = ([Event.evaluated 1, Event.executed 1], .ok (ctx0, true)) := by
  have h1 := (default_fire_lifecycle 0 (fun _ => .ok false) (fun c => .ok c) [] ctx0).1 rfl
  have h2 := (default_fire_lifecycle 1 (fun _ => .ok true) (fun c => .ok c) [] ctx0).2.2.2.1
    ctx0 rfl rfl
  have h3 : DynRule.fireList [] ctx0 = ([], .ok ctx0) := by
    rw [DynRule.fireList.eq_def]
  refine ⟨h1, ?_⟩
  simp only [dTrue]
  rw [h2]
  simp [h3]

/-- C7: `BaseRule::execute` runs the pre-hook, then the main hook, then
the post-hook, strictly in that order; the first hook that fails aborts
`execute` with that error and every later hook is not invoked (the trace
stops at the failing hook). -/
theorem execute_hook_order (id : Nat)
    (p m q : RuleContext → Except RuleError RuleContext) (ctx : RuleContext) :
    (∀ e, p ctx = .error e →
       BaseRule.execute ⟨id, some p, some m, some q⟩ ctx = ([Event.preExec id], .error e))
  ∧ (∀ c1 e, p ctx = .ok c1 → m c1 = .error e →
       BaseRule.execute ⟨id, some p, some m, some q⟩ ctx
         = ([Event.preExec id, Event.mainExec id], .error e))
  ∧ (∀ c1 c2 e, p ctx = .ok c1 → m c1 = .ok c2 → q c2 = .error e →
       BaseRule.execute ⟨id, some p, some m, some q⟩ ctx
         = ([Event.preExec id, Event.mainExec id, Event.postExec id], .error e))
  ∧ (∀ c1 c2 c3, p ctx = .ok c1 → m c1 = .ok c2 → q c2 = .ok c3 →
       BaseRule.execute ⟨id, some p, some m, some q⟩ ctx
         = ([Event.preExec id, Event.mainExec id, Event.postExec id], .ok c3)) := by
  refine ⟨?_, ?_, ?_, ?_⟩ <;> intros <;>
    simp [BaseRule.execute, hookSeq, hookStep, *]

/-- Witness for C7: a failing pre-hook aborts `execute` with only the
pre-hook invoked; three succeeding hooks all run in order. -/
theorem execute_hook_order_instance :
    BaseRule.execute ⟨7, some (hookFail "pre failed"), some hookOk, some hookOk⟩ ctx0
      = ([Event.preExec 7], .error (.executionFailed "pre failed"))
  ∧ BaseRule.execute ⟨8, some hookOk, some hookOk, some hookOk⟩ ctx0
      = ([Event.preExec 8, Event.mainExec 8, Event.postExec 8], .ok ctx0) := by
  exact ⟨(execute_hook_order 7 (hookFail "pre failed") hookOk hookOk ctx0).1
           (.executionFailed "pre failed") rfl,
         (execute_hook_order 8 hookOk hookOk hookOk ctx0).2.2.2 ctx0 ctx0 ctx0 rfl rfl rfl⟩
